import Mathlib

/-!
# casbin-auth: the Casbin authorization middleware and the server start-up

A shallow embedding of `main.go`: `getUserFromContext`, the middleware
`CasbinAuth` and `main`.

The collaborators the program calls (the Casbin enforcer, the echo logger, the
echo router, the response writer) are external libraries.  Every call the
program makes on one of them is recorded as an event of a trace, and the value
such a call returns is supplied by the caller of the model: the enforcer is a
function from its arguments to its `(bool, error)` result, a handler is a
function from its context to the error it returns and the events it performs.
-/

set_option autoImplicit false

namespace CasbinAuthApp

/-! ## Data model -/

/-- Go `error` value coming from a collaborator (the enforcer, the response
writer, the HTTP server).  The program observes such a value only through its
`Error()` method; a nil error is `none` of `Option GoError`. -/
structure GoError where
  Error : String
deriving DecidableEq, Repr

/-- The `error` values an `echo.HandlerFunc` returns: an `*echo.HTTPError` as
built by `echo.NewHTTPError(code, message)`, or any other error. -/
inductive HandlerError where
  | HTTPError (Code : Nat) (Message : String)
  | other (err : GoError)
deriving DecidableEq, Repr

/-- Constant `http.StatusOK`. -/
def StatusOK : Nat := 200

/-- Constant `http.StatusForbidden`. -/
def StatusForbidden : Nat := 403

/-- Constant `http.StatusInternalServerError`. -/
def StatusInternalServerError : Nat := 500

/-- Function `echo.NewHTTPError(code, message)` with one string message. -/
def NewHTTPError (code : Nat) (message : String) : HandlerError :=
  HandlerError.HTTPError code message

/-- Type `http.Header`, a `map[string][]string`: the first entry of a key is the
map's entry. -/
abbrev Header := List (String × List String)

/-- Type `url.URL`, the field the program reads. -/
structure URL where
  Path : String
deriving DecidableEq, Repr

/-- Type `http.Request`, the fields the program reads. -/
structure Request where
  Method : String
  URL : URL
  Header : Header
deriving DecidableEq, Repr

/-- Type `echo.Context`: the request it carries, and the error its response writer
gives back when a body is written to it (`none` when the write succeeds). -/
structure Context where
  Request : Request
  writeErr : Option GoError
deriving DecidableEq, Repr

/-- Method `Header.Get(key)` for a key already in canonical MIME form, as "X-User" is:
the first value stored under the key, "" when the key is absent or has no
value. -/
def Header.Get (h : Header) (key : String) : String :=
  match h.lookup key with
  | some (v :: _) => v
  | _ => ""

/-- The calls a handler makes on its collaborators, in the order made. -/
inductive Event where
  /-- Call `c.Echo().Logger.Printf(format, args...)`, the arguments rendered as text -/
  | Printf (format : String) (args : List String)
  /-- Call `e.Enforce(rvals...)` -/
  | Enforce (rvals : List String)
  /-- Call `next(c)` -/
  | next (c : Context)
  /-- Call `c.String(code, s)` -/
  | writeString (code : Nat) (s : String)
  /-- An event performed by the handler that was called through `next` -/
  | inner (ev : Event)
deriving DecidableEq, Repr

/-- What one run of a handler gives: the `error` it returns and the events it
performed. -/
structure Outcome where
  err : Option HandlerError
  trace : List Event
deriving DecidableEq, Repr

/-- Type `echo.HandlerFunc`. -/
abbrev HandlerFunc := Context → Outcome

/-- Type `echo.MiddlewareFunc`. -/
abbrev MiddlewareFunc := HandlerFunc → HandlerFunc

/-- Type `*casbin.Enforcer`, through the one method the program calls:
`Enforce(rvals ...interface{}) (bool, error)`. -/
structure Enforcer where
  Enforce : List String → Bool × Option GoError

/-- Method `c.String(code, s)`: writes the response and returns the writer's error. -/
def Context.String (c : Context) (code : Nat) (s : String) : Outcome :=
  { err := c.writeErr.map HandlerError.other, trace := [Event.writeString code s] }

/-! ## The handler code of `main.go` -/

/-- Function `getUserFromContext` (main.go 46-56). -/
def getUserFromContext (c : Context) : String :=
  let user := c.Request.Header.Get "X-User"
  if user == "" then
    "guest"
  else
    user

/-- Function `CasbinAuth` (main.go 15-41). -/
def CasbinAuth (e : Enforcer) : MiddlewareFunc :=
  fun next => fun c =>
    let user := getUserFromContext c
    let path := c.Request.URL.Path
    let method := c.Request.Method
    let t₀ := [Event.Printf "Entering CasbinAuth: user=%s, path=%s, method=%s" [user, path, method],
               Event.Enforce [user, path, method]]
    match e.Enforce [user, path, method] with
    | (_, some err) =>
      { err := some (NewHTTPError StatusInternalServerError ("Authorization failed: " ++ err.Error))
        trace := t₀ ++ [Event.Printf "Casbin error: %v" [err.Error]] }
    | (false, none) =>
      { err := some (NewHTTPError StatusForbidden "Access denied")
        trace := t₀ ++ [Event.Printf "Denied: user=%s, path=%s, method=%s" [user, path, method]] }
    | (true, none) =>
      let r := next c
      { err := r.err
        trace := t₀ ++ [Event.Printf "Allowed: user=%s, path=%s, method=%s" [user, path, method],
                        Event.next c] ++ r.trace.map Event.inner }

/-! ## The echo instance and the start-up code of `main.go` -/

/-- One entry of the router's table: the handler is stored with the middleware
of its group already applied. -/
structure Route where
  Method : String
  Path : String
  handler : HandlerFunc

/-- The calls `main` makes on the libraries, in the order made. -/
inductive Call where
  /-- Call `echo.New()` -/
  | New
  /-- Call `e.Logger.SetOutput(w)` -/
  | SetOutput (w : String)
  /-- Call `e.Use(m)`, the middleware given by its constructor -/
  | Use (m : String)
  /-- Call `casbin.NewEnforcer(model, policy)` -/
  | NewEnforcer (model policy : String)
  /-- Registration of a route in the router -/
  | Add (method path : String)
  /-- Call `e.Start(address)` -/
  | Start (address : String)
  /-- Call `e.Logger.Fatal(v)`: the logger writes `v` and ends the process -/
  | Fatal (v : Option GoError)
deriving DecidableEq, Repr

/-- The state of the running program: the global middleware and the route table
of its echo instance, and the calls made so far. -/
structure Program where
  middleware : List String
  routes : List Route
  calls : List Call

/-- Type `*echo.Group`: its path base and its middleware. -/
structure Group where
  base : String
  middleware : List MiddlewareFunc

/-- What `main` gets from outside: the result of loading the model and policy
files, and the error `e.Start` returns once the server stops. -/
structure Env where
  NewEnforcer : String → String → Except GoError Enforcer
  Start : String → Option GoError

/-- Function `echo.New()`. -/
def Program.New : Program :=
  { middleware := [], routes := [], calls := [Call.New] }

/-- Method `e.Logger.SetOutput(w)`. -/
def Program.SetOutput (p : Program) (w : String) : Program :=
  { p with calls := p.calls ++ [Call.SetOutput w] }

/-- Method `e.Use(m)`: appends to the global middleware. -/
def Program.Use (p : Program) (m : String) : Program :=
  { p with middleware := p.middleware ++ [m], calls := p.calls ++ [Call.Use m] }

/-- The call of `casbin.NewEnforcer`, recorded. -/
def Program.NewEnforcer (p : Program) (model policy : String) : Program :=
  { p with calls := p.calls ++ [Call.NewEnforcer model policy] }

/-- Method `e.Logger.Fatal(v)` of echo's logger: the last call of a run. -/
def Program.Fatal (p : Program) (v : Option GoError) : Program :=
  { p with calls := p.calls ++ [Call.Fatal v] }

/-- Method `e.Start(address)`, recorded; requests are served from this call on. -/
def Program.Start (p : Program) (address : String) : Program :=
  { p with calls := p.calls ++ [Call.Start address] }

/-- Function `applyMiddleware` of echo: the first middleware is the outermost. -/
def applyMiddleware (h : HandlerFunc) (ms : List MiddlewareFunc) : HandlerFunc :=
  ms.foldr (fun m acc => m acc) h

/-- Method `e.Add(method, path, handler)`. -/
def Program.Add (p : Program) (method path : String) (h : HandlerFunc) : Program :=
  { p with routes := p.routes ++ [{ Method := method, Path := path, handler := h }]
           calls := p.calls ++ [Call.Add method path] }

/-- Method `e.GET(path, h)`. -/
def Program.GET (p : Program) (path : String) (h : HandlerFunc) : Program :=
  p.Add "GET" path h

/-- Constant `http.StatusNotFound`. -/
def StatusNotFound : Nat := 404

/-- Constant `echo.RouteNotFound`, the method under which echo stores the
handler a group falls back on when no route of the group matches. -/
def RouteNotFound : String := "echo_route_not_found"

/-- Value `echo.ErrNotFound`, that is `NewHTTPError(http.StatusNotFound)`. -/
def ErrNotFound : HandlerError :=
  HandlerError.HTTPError StatusNotFound "Not Found"

/-- Function `echo.NotFoundHandler`: returns `ErrNotFound` and writes nothing. -/
def NotFoundHandler : HandlerFunc :=
  fun _ => { err := some ErrNotFound, trace := [] }

/-- Method `g.Add(method, path, handler)`: registers under the base of the
group, with the middleware the group has at this moment. -/
def Group.Add (g : Group) (p : Program) (method path : String) (h : HandlerFunc) : Program :=
  p.Add method (g.base ++ path) (applyMiddleware h g.middleware)

/-- Method `g.RouteNotFound(path, h)`. -/
def Group.RouteNotFound (g : Group) (p : Program) (path : String) (h : HandlerFunc) : Program :=
  g.Add p CasbinAuthApp.RouteNotFound path h

/-- Method `g.Use(ms...)` of echo: appends to the middleware of the group and,
when the group then has middleware, registers the two catch-all not-found
routes of the group, so that the middleware also runs on a path of the group
that no route matches. -/
def Group.Use (g : Group) (p : Program) (ms : List MiddlewareFunc) : Group × Program :=
  let g := { g with middleware := g.middleware ++ ms }
  if g.middleware.isEmpty then
    (g, p)
  else
    let p := g.RouteNotFound p "" NotFoundHandler
    let p := g.RouteNotFound p "/*" NotFoundHandler
    (g, p)

/-- Method `e.Group(base, ms...)` of echo: a new group on which `Use(ms...)` is called. -/
def Program.Group (p : Program) (base : String) (ms : List MiddlewareFunc) : Group × Program :=
  Group.Use { base := base, middleware := [] } p ms

/-- Method `g.GET(path, h)`. -/
def Group.GET (g : Group) (p : Program) (path : String) (h : HandlerFunc) : Program :=
  g.Add p "GET" path h

/-- Method `g.POST(path, h)`. -/
def Group.POST (g : Group) (p : Program) (path : String) (h : HandlerFunc) : Program :=
  g.Add p "POST" path h

/-- Function `main` (main.go 58-104). -/
def main (env : Env) : Program :=
  let e := Program.New
  let e := e.SetOutput "os.Stdout"
  let e := e.Use "middleware.Logger()"
  let e := e.Use "middleware.Recover()"
  let e := e.NewEnforcer "auth_model.conf" "policy.csv"
  match env.NewEnforcer "auth_model.conf" "policy.csv" with
  | Except.error err => e.Fatal (some err)
  | Except.ok enforcer =>
    let e := e.GET "/" (fun c => c.String StatusOK "Hello, World!")
    let (admin, e) := e.Group "/admin" []
    let (admin, e) := admin.Use e [CasbinAuth enforcer]
    let e := admin.GET e "/dashboard" (fun c => c.String StatusOK "Admin Dashboard")
    let e := admin.GET e "/posts" (fun c => c.String StatusOK "View post")
    let e := admin.POST e "/users" (fun c => c.String StatusOK "User created")
    let e := admin.POST e "/posts" (fun c => c.String StatusOK "Upload post")
    let e := e.Start ":9000"
    e.Fatal (env.Start ":9000")

/-! ## Observations on traces -/

/-- Whether an event is a call of the enforcer made by the handler itself. -/
def Event.isEnforce : Event → Bool
  | Event.Enforce _ => true
  | _ => false

/-- Whether an event is the handler's own call of `next`. -/
def Event.isNext : Event → Bool
  | Event.next _ => true
  | _ => false

/-- The event a handler called through `next` performed, for such an event. -/
def Event.ofInner : Event → Option Event
  | Event.inner ev => some ev
  | _ => none

/-- The arguments `CasbinAuth` passes to the enforcer for a context. -/
def enforceArgs (c : Context) : List String :=
  [getUserFromContext c, c.Request.URL.Path, c.Request.Method]

/-- Whether a call of `main` is a construction of the enforcer. -/
def Call.isNewEnforcer : Call → Bool
  | Call.NewEnforcer _ _ => true
  | _ => false

/-! ## Sample inputs -/

/-- An enforcer for the sample runs: a request of the wrong arity or from the
subject "broken" is a fault, and only admin may GET /admin/dashboard. -/
def sampleEnforcer : Enforcer :=
  { Enforce := fun rvals =>
      match rvals with
      | [sub, obj, act] =>
        if sub == "broken" then (true, some { Error := "invalid matcher" })
        else (sub == "admin" && obj == "/admin/dashboard" && act == "GET", none)
      | _ => (false, some { Error := "invalid request size" }) }

/-- A request context with the given X-User values, path and method. -/
def sampleContext (user : List String) (path method : String) : Context :=
  { Request := { Method := method, URL := { Path := path }, Header := [("X-User", user)] }
    writeErr := none }

/-- The body of the dashboard route of `main`. -/
def sampleNext : HandlerFunc :=
  fun c => c.String StatusOK "Admin Dashboard"

/-- A start-up in which the model and policy load. -/
def sampleEnv : Env :=
  { NewEnforcer := fun _ _ => Except.ok sampleEnforcer
    Start := fun _ => some { Error := "http: Server closed" } }

/-- A start-up in which the model file cannot be read. -/
def failingEnv : Env :=
  { NewEnforcer := fun _ _ => Except.error { Error := "open auth_model.conf: no such file or directory" }
    Start := fun _ => some { Error := "http: Server closed" } }

/-! ## Lemmas on `CasbinAuth` -/

theorem filter_isEnforce_inner (l : List Event) :
    (l.map Event.inner).filter Event.isEnforce = [] := by
  induction l with
  | nil => rfl
  | cons a t ih => simp [List.filter, Event.isEnforce]

theorem filter_isNext_inner (l : List Event) :
    (l.map Event.inner).filter Event.isNext = [] := by
  induction l with
  | nil => rfl
  | cons a t ih => simp [List.filter, Event.isNext]

theorem filterMap_ofInner_inner (l : List Event) :
    (l.map Event.inner).filterMap Event.ofInner = l := by
  induction l with
  | nil => rfl
  | cons a t ih => simpa [List.filterMap, Event.ofInner] using ih

/-- The run of the handler when the enforcer reports an error. -/
theorem CasbinAuth_of_error (e : Enforcer) (next : HandlerFunc) (c : Context) (ok : Bool)
    (err : GoError) (h : e.Enforce (enforceArgs c) = (ok, some err)) :
    CasbinAuth e next c =
      { err := some (HandlerError.HTTPError StatusInternalServerError
                      ("Authorization failed: " ++ err.Error))
        trace := [Event.Printf "Entering CasbinAuth: user=%s, path=%s, method=%s" (enforceArgs c),
                  Event.Enforce (enforceArgs c),
                  Event.Printf "Casbin error: %v" [err.Error]] } := by
  unfold enforceArgs at h
  simp [CasbinAuth, h, NewHTTPError, enforceArgs]

/-- The run of the handler when the enforcer denies. -/
theorem CasbinAuth_of_deny (e : Enforcer) (next : HandlerFunc) (c : Context)
    (h : e.Enforce (enforceArgs c) = (false, none)) :
    CasbinAuth e next c =
      { err := some (HandlerError.HTTPError StatusForbidden "Access denied")
        trace := [Event.Printf "Entering CasbinAuth: user=%s, path=%s, method=%s" (enforceArgs c),
                  Event.Enforce (enforceArgs c),
                  Event.Printf "Denied: user=%s, path=%s, method=%s" (enforceArgs c)] } := by
  unfold enforceArgs at h
  simp [CasbinAuth, h, NewHTTPError, enforceArgs]

/-- The run of the handler when the enforcer allows. -/
theorem CasbinAuth_of_allow (e : Enforcer) (next : HandlerFunc) (c : Context)
    (h : e.Enforce (enforceArgs c) = (true, none)) :
    CasbinAuth e next c =
      { err := (next c).err
        trace := [Event.Printf "Entering CasbinAuth: user=%s, path=%s, method=%s" (enforceArgs c),
                  Event.Enforce (enforceArgs c),
                  Event.Printf "Allowed: user=%s, path=%s, method=%s" (enforceArgs c),
                  Event.next c] ++ (next c).trace.map Event.inner } := by
  unfold enforceArgs at h
  simp [CasbinAuth, h, enforceArgs]

/-- The three results of the enforcer: an error, a denial, an allowance. -/
theorem enforce_cases (r : Bool × Option GoError) :
    (∃ ok err, r = (ok, some err)) ∨ r = (false, none) ∨ r = (true, none) := by
  rcases r with ⟨b, _ | err⟩
  · cases b <;> simp
  · exact Or.inl ⟨b, err, rfl⟩

/-- An event of `next` is in the trace exactly when the enforcer allowed and
`next` performed it. -/
theorem CasbinAuth_inner_mem (e : Enforcer) (next : HandlerFunc) (c : Context) (ev : Event) :
    Event.inner ev ∈ (CasbinAuth e next c).trace ↔
      e.Enforce (enforceArgs c) = (true, none) ∧ ev ∈ (next c).trace := by
  rcases enforce_cases (e.Enforce (enforceArgs c)) with ⟨ok, err, h⟩ | h | h
  · rw [CasbinAuth_of_error e next c ok err h, h]
    simp
  · rw [CasbinAuth_of_deny e next c h, h]
    simp
  · rw [CasbinAuth_of_allow e next c h, h]
    simp

/-- The handler's own calls of the enforcer: one, on the arguments of the context. -/
theorem CasbinAuth_filter_isEnforce (e : Enforcer) (next : HandlerFunc) (c : Context) :
    (CasbinAuth e next c).trace.filter Event.isEnforce = [Event.Enforce (enforceArgs c)] := by
  rcases enforce_cases (e.Enforce (enforceArgs c)) with ⟨ok, err, h⟩ | h | h
  · rw [CasbinAuth_of_error e next c ok err h]
    simp [List.filter, Event.isEnforce]
  · rw [CasbinAuth_of_deny e next c h]
    simp [List.filter, Event.isEnforce]
  · rw [CasbinAuth_of_allow e next c h]
    simp [List.filter_append, filter_isEnforce_inner, List.filter, Event.isEnforce]

/-- The run of the handler whenever the enforcer does not allow: it is one of
the two errors of the handler, and `next` has no part in it. -/
theorem CasbinAuth_of_not_allow (e : Enforcer) (next : HandlerFunc) (c : Context)
    (h : e.Enforce (enforceArgs c) ≠ (true, none)) :
    (∀ next' : HandlerFunc, CasbinAuth e next' c = CasbinAuth e next c) ∧
      (CasbinAuth e next c).trace.filterMap Event.ofInner = [] ∧
      (CasbinAuth e next c).trace.filter Event.isNext = [] ∧
      ((∃ err : GoError, (CasbinAuth e next c).err =
            some (HandlerError.HTTPError 500 ("Authorization failed: " ++ err.Error))) ∨
        (CasbinAuth e next c).err = some (HandlerError.HTTPError 403 "Access denied")) := by
  rcases enforce_cases (e.Enforce (enforceArgs c)) with ⟨ok, err, h'⟩ | h' | h'
  · refine ⟨fun next' => ?_, ?_, ?_, Or.inl ⟨err, ?_⟩⟩
    · rw [CasbinAuth_of_error e next' c ok err h', CasbinAuth_of_error e next c ok err h']
    all_goals
      rw [CasbinAuth_of_error e next c ok err h']
      simp [List.filter, List.filterMap, Event.isNext, Event.ofInner, StatusInternalServerError]
  · refine ⟨fun next' => ?_, ?_, ?_, Or.inr ?_⟩
    · rw [CasbinAuth_of_deny e next' c h', CasbinAuth_of_deny e next c h']
    all_goals
      rw [CasbinAuth_of_deny e next c h']
      simp [List.filter, List.filterMap, Event.isNext, Event.ofInner, StatusForbidden]
  · exact absurd h' h

/-- The run of the handler when the enforcer allows, seen from outside: one call
of `next`, the events of that run of `next`, and its result. -/
theorem CasbinAuth_allow_run (e : Enforcer) (next : HandlerFunc) (c : Context)
    (h : e.Enforce (enforceArgs c) = (true, none)) :
    (CasbinAuth e next c).err = (next c).err ∧
      (CasbinAuth e next c).trace.filter Event.isNext = [Event.next c] ∧
      (CasbinAuth e next c).trace.filterMap Event.ofInner = (next c).trace := by
  rw [CasbinAuth_of_allow e next c h]
  refine ⟨rfl, ?_, ?_⟩
  · simp [List.filter_append, filter_isNext_inner, List.filter, Event.isNext]
  · show List.filterMap Event.ofInner (_ ++ List.map Event.inner (next c).trace) = _
    rw [List.filterMap_append, filterMap_ofInner_inner]
    rfl

/-- The handler consults the enforcer at the arguments of the context only. -/
theorem CasbinAuth_congr_enforcer (e e' : Enforcer) (next : HandlerFunc) (c : Context)
    (h : e'.Enforce (enforceArgs c) = e.Enforce (enforceArgs c)) :
    CasbinAuth e' next c = CasbinAuth e next c := by
  rcases enforce_cases (e.Enforce (enforceArgs c)) with ⟨ok, err, h₁⟩ | h₁ | h₁
  · rw [CasbinAuth_of_error e next c ok err h₁, CasbinAuth_of_error e' next c ok err (h.trans h₁)]
  · rw [CasbinAuth_of_deny e next c h₁, CasbinAuth_of_deny e' next c (h.trans h₁)]
  · rw [CasbinAuth_of_allow e next c h₁, CasbinAuth_of_allow e' next c (h.trans h₁)]

/-- The error the handler returns, as a function of the answer of the enforcer. -/
theorem CasbinAuth_err_eq (e : Enforcer) (next : HandlerFunc) (c : Context) :
    (CasbinAuth e next c).err =
      (match e.Enforce (enforceArgs c) with
       | (_, some err) =>
         some (HandlerError.HTTPError 500 ("Authorization failed: " ++ err.Error))
       | (false, none) => some (HandlerError.HTTPError 403 "Access denied")
       | (true, none) => (next c).err) := by
  rcases enforce_cases (e.Enforce (enforceArgs c)) with ⟨ok, err, h⟩ | h | h
  · rw [CasbinAuth_of_error e next c ok err h, h]
    simp [StatusInternalServerError]
  · rw [CasbinAuth_of_deny e next c h, h]
    simp [StatusForbidden]
  · rw [CasbinAuth_of_allow e next c h, h]

/-- The route table `main` builds once the enforcer is constructed. -/
theorem main_routes_of_ok (env : Env) (enforcer : Enforcer)
    (h : env.NewEnforcer "auth_model.conf" "policy.csv" = Except.ok enforcer) :
    (main env).routes =
      [{ Method := "GET", Path := "/", handler := fun c => c.String StatusOK "Hello, World!" },
       { Method := RouteNotFound, Path := "/admin"
         handler := CasbinAuth enforcer NotFoundHandler },
       { Method := RouteNotFound, Path := "/admin/*"
         handler := CasbinAuth enforcer NotFoundHandler },
       { Method := "GET", Path := "/admin/dashboard"
         handler := CasbinAuth enforcer (fun c => c.String StatusOK "Admin Dashboard") },
       { Method := "GET", Path := "/admin/posts"
         handler := CasbinAuth enforcer (fun c => c.String StatusOK "View post") },
       { Method := "POST", Path := "/admin/users"
         handler := CasbinAuth enforcer (fun c => c.String StatusOK "User created") },
       { Method := "POST", Path := "/admin/posts"
         handler := CasbinAuth enforcer (fun c => c.String StatusOK "Upload post") }] := by
  simp only [main, h]
  rfl

/-- The calls `main` makes once the enforcer is constructed. -/
theorem main_calls_of_ok (env : Env) (enforcer : Enforcer)
    (h : env.NewEnforcer "auth_model.conf" "policy.csv" = Except.ok enforcer) :
    (main env).calls =
      [Call.New, Call.SetOutput "os.Stdout", Call.Use "middleware.Logger()",
       Call.Use "middleware.Recover()", Call.NewEnforcer "auth_model.conf" "policy.csv",
       Call.Add "GET" "/", Call.Add RouteNotFound "/admin", Call.Add RouteNotFound "/admin/*",
       Call.Add "GET" "/admin/dashboard", Call.Add "GET" "/admin/posts",
       Call.Add "POST" "/admin/users", Call.Add "POST" "/admin/posts",
       Call.Start ":9000", Call.Fatal (env.Start ":9000")] := by
  simp only [main, h]
  rfl

/-- The calls `main` makes when the enforcer cannot be constructed. -/
theorem main_calls_of_error (env : Env) (err : GoError)
    (h : env.NewEnforcer "auth_model.conf" "policy.csv" = Except.error err) :
    (main env).calls =
      [Call.New, Call.SetOutput "os.Stdout", Call.Use "middleware.Logger()",
       Call.Use "middleware.Recover()", Call.NewEnforcer "auth_model.conf" "policy.csv",
       Call.Fatal (some err)] := by
  simp only [main, h]
  rfl

/-! ## The claims on the handler -/

/-- C1: when `Enforce` returns a non-nil error, whatever boolean comes with it,
the handler returns the HTTP error 500 "Authorization failed: " followed by the
text of the error, as a returned value; it does not call `next` and nothing of
`next` runs; the status differs from 403, the status of a denial. -/
theorem CasbinAuth_error_is_500 (e : Enforcer) (next : HandlerFunc) (c : Context)
    (ok : Bool) (err : GoError) (h : e.Enforce (enforceArgs c) = (ok, some err)) :
    (CasbinAuth e next c).err =
        some (HandlerError.HTTPError 500 ("Authorization failed: " ++ err.Error)) ∧
      (CasbinAuth e next c).trace.filter Event.isNext = [] ∧
      (CasbinAuth e next c).trace.filterMap Event.ofInner = [] ∧
      (∀ msg, (CasbinAuth e next c).err ≠ some (HandlerError.HTTPError StatusForbidden msg)) := by
  rw [CasbinAuth_of_error e next c ok err h]
  simp [List.filter, List.filterMap, Event.isNext, Event.ofInner, StatusInternalServerError,
    StatusForbidden]

/-- The sample enforcer faults on the subject "broken" while answering true; the
handler then returns 500 with the text of the fault and does not call `next`. -/
theorem CasbinAuth_error_is_500_witness :
    sampleEnforcer.Enforce (enforceArgs (sampleContext ["broken"] "/admin/dashboard" "GET")) =
        (true, some { Error := "invalid matcher" }) ∧
      (CasbinAuth sampleEnforcer sampleNext
          (sampleContext ["broken"] "/admin/dashboard" "GET")).err =
        some (HandlerError.HTTPError 500 "Authorization failed: invalid matcher") ∧
      (CasbinAuth sampleEnforcer sampleNext
          (sampleContext ["broken"] "/admin/dashboard" "GET")).trace.filter Event.isNext = [] :=
  ⟨by decide,
    (CasbinAuth_error_is_500 sampleEnforcer sampleNext
      (sampleContext ["broken"] "/admin/dashboard" "GET") true { Error := "invalid matcher" }
      (by decide)).1,
    (CasbinAuth_error_is_500 sampleEnforcer sampleNext
      (sampleContext ["broken"] "/admin/dashboard" "GET") true { Error := "invalid matcher" }
      (by decide)).2.1⟩

/-- C2: when `Enforce` returns (false, nil), the handler returns the HTTP error
403 "Access denied"; it does not call `next` and nothing of `next` runs. -/
theorem CasbinAuth_deny_is_403 (e : Enforcer) (next : HandlerFunc) (c : Context)
    (h : e.Enforce (enforceArgs c) = (false, none)) :
    (CasbinAuth e next c).err = some (HandlerError.HTTPError 403 "Access denied") ∧
      (CasbinAuth e next c).trace.filter Event.isNext = [] ∧
      (CasbinAuth e next c).trace.filterMap Event.ofInner = [] := by
  rw [CasbinAuth_of_deny e next c h]
  simp [List.filter, List.filterMap, Event.isNext, Event.ofInner, StatusForbidden]

/-- The sample enforcer denies bob the dashboard; the handler returns 403. -/
theorem CasbinAuth_deny_is_403_witness :
    sampleEnforcer.Enforce (enforceArgs (sampleContext ["bob"] "/admin/dashboard" "GET")) =
        (false, none) ∧
      (CasbinAuth sampleEnforcer sampleNext
          (sampleContext ["bob"] "/admin/dashboard" "GET")).err =
        some (HandlerError.HTTPError 403 "Access denied") ∧
      (CasbinAuth sampleEnforcer sampleNext
          (sampleContext ["bob"] "/admin/dashboard" "GET")).trace.filter Event.isNext = [] :=
  ⟨by decide,
    (CasbinAuth_deny_is_403 sampleEnforcer sampleNext
      (sampleContext ["bob"] "/admin/dashboard" "GET") (by decide)).1,
    (CasbinAuth_deny_is_403 sampleEnforcer sampleNext
      (sampleContext ["bob"] "/admin/dashboard" "GET") (by decide)).2.1⟩

/-- C3: when `Enforce` returns (true, nil), the handler calls `next` exactly
once, on the context it was given, the events of that one run of `next` are
the only ones nested in its trace, and it returns what `next` returns,
unchanged. -/
theorem CasbinAuth_allow_delegates (e : Enforcer) (next : HandlerFunc) (c : Context)
    (h : e.Enforce (enforceArgs c) = (true, none)) :
    (CasbinAuth e next c).err = (next c).err ∧
      (CasbinAuth e next c).trace.filter Event.isNext = [Event.next c] ∧
      (CasbinAuth e next c).trace.filterMap Event.ofInner = (next c).trace := by
  rw [CasbinAuth_of_allow e next c h]
  refine ⟨rfl, ?_, ?_⟩
  · simp [List.filter_append, filter_isNext_inner, List.filter, Event.isNext]
  · show List.filterMap Event.ofInner (_ ++ List.map Event.inner (next c).trace) = _
    rw [List.filterMap_append, filterMap_ofInner_inner]
    rfl

/-- The sample enforcer allows admin the dashboard; the handler calls the body
once and returns its nil error. -/
theorem CasbinAuth_allow_delegates_witness :
    sampleEnforcer.Enforce (enforceArgs (sampleContext ["admin"] "/admin/dashboard" "GET")) =
        (true, none) ∧
      (CasbinAuth sampleEnforcer sampleNext
          (sampleContext ["admin"] "/admin/dashboard" "GET")).err = none ∧
      (CasbinAuth sampleEnforcer sampleNext
          (sampleContext ["admin"] "/admin/dashboard" "GET")).trace.filter Event.isNext =
        [Event.next (sampleContext ["admin"] "/admin/dashboard" "GET")] ∧
      (CasbinAuth sampleEnforcer sampleNext
          (sampleContext ["admin"] "/admin/dashboard" "GET")).trace.filterMap Event.ofInner =
        [Event.writeString 200 "Admin Dashboard"] :=
  ⟨by decide,
    CasbinAuth_allow_delegates sampleEnforcer sampleNext
      (sampleContext ["admin"] "/admin/dashboard" "GET") (by decide)⟩

/-- C4: on every request the handler calls the enforcer exactly once, with the
three arguments subject, object, action in this order: the result of
`getUserFromContext`, the URL path of the request and its method, each passed
as it is.  The trace holds that one call; the run is the same for any enforcer
that answers alike on exactly this argument list, so no other list is consulted;
and the error returned is read off the answer of the enforcer on this list. -/
theorem CasbinAuth_enforce_once (e : Enforcer) (next : HandlerFunc) (c : Context) :
    (CasbinAuth e next c).trace.filter Event.isEnforce =
        [Event.Enforce [getUserFromContext c, c.Request.URL.Path, c.Request.Method]] ∧
      (∀ e' : Enforcer,
        e'.Enforce [getUserFromContext c, c.Request.URL.Path, c.Request.Method] =
            e.Enforce [getUserFromContext c, c.Request.URL.Path, c.Request.Method] →
          CasbinAuth e' next c = CasbinAuth e next c) ∧
      (CasbinAuth e next c).err =
        (match e.Enforce [getUserFromContext c, c.Request.URL.Path, c.Request.Method] with
         | (_, some err) =>
           some (HandlerError.HTTPError 500 ("Authorization failed: " ++ err.Error))
         | (false, none) => some (HandlerError.HTTPError 403 "Access denied")
         | (true, none) => (next c).err) :=
  ⟨CasbinAuth_filter_isEnforce e next c,
    fun e' h => CasbinAuth_congr_enforcer e e' next c h,
    CasbinAuth_err_eq e next c⟩

/-- C5: `getUserFromContext` returns the first value of the X-User header when
that value is not empty, and "guest" when the header is absent, has no value,
or has the empty string as its value. -/
theorem getUserFromContext_spec (c : Context) :
    (∀ v rest, c.Request.Header.lookup "X-User" = some (v :: rest) → v ≠ "" →
        getUserFromContext c = v) ∧
      (c.Request.Header.lookup "X-User" = none → getUserFromContext c = "guest") ∧
      (c.Request.Header.lookup "X-User" = some [] → getUserFromContext c = "guest") ∧
      (∀ rest, c.Request.Header.lookup "X-User" = some ("" :: rest) →
        getUserFromContext c = "guest") := by
  refine ⟨?_, ?_, ?_, ?_⟩
  · intro v rest h hv
    simp [getUserFromContext, Header.Get, h, hv]
  · intro h
    simp [getUserFromContext, Header.Get, h]
  · intro h
    simp [getUserFromContext, Header.Get, h]
  · intro rest h
    simp [getUserFromContext, Header.Get, h]

/-- C6: for two requests and one next handler, when the enforcer gives the same
(boolean, error) result for both, the handler gives the same class of outcome
for both: 500 with the same message and no call of `next`, or 403 "Access
denied" and no call of `next`, or one call of `next` whose result is returned. -/
theorem CasbinAuth_outcome_by_enforcer (e : Enforcer) (next : HandlerFunc) (c₁ c₂ : Context)
    (h : e.Enforce (enforceArgs c₁) = e.Enforce (enforceArgs c₂)) :
    (∃ msg, (CasbinAuth e next c₁).err = some (HandlerError.HTTPError 500 msg) ∧
        (CasbinAuth e next c₂).err = some (HandlerError.HTTPError 500 msg) ∧
        (CasbinAuth e next c₁).trace.filter Event.isNext = [] ∧
        (CasbinAuth e next c₂).trace.filter Event.isNext = []) ∨
      ((CasbinAuth e next c₁).err = some (HandlerError.HTTPError 403 "Access denied") ∧
        (CasbinAuth e next c₂).err = some (HandlerError.HTTPError 403 "Access denied") ∧
        (CasbinAuth e next c₁).trace.filter Event.isNext = [] ∧
        (CasbinAuth e next c₂).trace.filter Event.isNext = []) ∨
      ((CasbinAuth e next c₁).err = (next c₁).err ∧
        (CasbinAuth e next c₂).err = (next c₂).err ∧
        (CasbinAuth e next c₁).trace.filter Event.isNext = [Event.next c₁] ∧
        (CasbinAuth e next c₂).trace.filter Event.isNext = [Event.next c₂]) := by
  rcases enforce_cases (e.Enforce (enforceArgs c₁)) with ⟨ok, err, h₁⟩ | h₁ | h₁
  · have h₂ : e.Enforce (enforceArgs c₂) = (ok, some err) := by rw [← h, h₁]
    refine Or.inl ⟨"Authorization failed: " ++ err.Error, ?_⟩
    rw [CasbinAuth_of_error e next c₁ ok err h₁, CasbinAuth_of_error e next c₂ ok err h₂]
    simp [List.filter, Event.isNext, StatusInternalServerError]
  · have h₂ : e.Enforce (enforceArgs c₂) = (false, none) := by rw [← h, h₁]
    refine Or.inr (Or.inl ?_)
    rw [CasbinAuth_of_deny e next c₁ h₁, CasbinAuth_of_deny e next c₂ h₂]
    simp [List.filter, Event.isNext, StatusForbidden]
  · have h₂ : e.Enforce (enforceArgs c₂) = (true, none) := by rw [← h, h₁]
    refine Or.inr (Or.inr ?_)
    rw [CasbinAuth_of_allow e next c₁ h₁, CasbinAuth_of_allow e next c₂ h₂]
    simp [List.filter_append, filter_isNext_inner, List.filter, Event.isNext]

/-- The sample enforcer denies both bob and the absent user, on different paths
and methods; the two runs fall in the same class, the one of 403. -/
theorem CasbinAuth_outcome_by_enforcer_witness :
    sampleEnforcer.Enforce (enforceArgs (sampleContext ["bob"] "/admin/dashboard" "GET")) =
        sampleEnforcer.Enforce (enforceArgs (sampleContext [] "/admin/posts" "POST")) ∧
      ((∃ msg, (CasbinAuth sampleEnforcer sampleNext
              (sampleContext ["bob"] "/admin/dashboard" "GET")).err =
            some (HandlerError.HTTPError 500 msg) ∧
          (CasbinAuth sampleEnforcer sampleNext (sampleContext [] "/admin/posts" "POST")).err =
            some (HandlerError.HTTPError 500 msg) ∧
          (CasbinAuth sampleEnforcer sampleNext
              (sampleContext ["bob"] "/admin/dashboard" "GET")).trace.filter Event.isNext = [] ∧
          (CasbinAuth sampleEnforcer sampleNext
              (sampleContext [] "/admin/posts" "POST")).trace.filter Event.isNext = []) ∨
        ((CasbinAuth sampleEnforcer sampleNext
              (sampleContext ["bob"] "/admin/dashboard" "GET")).err =
            some (HandlerError.HTTPError 403 "Access denied") ∧
          (CasbinAuth sampleEnforcer sampleNext (sampleContext [] "/admin/posts" "POST")).err =
            some (HandlerError.HTTPError 403 "Access denied") ∧
          (CasbinAuth sampleEnforcer sampleNext
              (sampleContext ["bob"] "/admin/dashboard" "GET")).trace.filter Event.isNext = [] ∧
          (CasbinAuth sampleEnforcer sampleNext
              (sampleContext [] "/admin/posts" "POST")).trace.filter Event.isNext = []) ∨
        ((CasbinAuth sampleEnforcer sampleNext
              (sampleContext ["bob"] "/admin/dashboard" "GET")).err =
            (sampleNext (sampleContext ["bob"] "/admin/dashboard" "GET")).err ∧
          (CasbinAuth sampleEnforcer sampleNext (sampleContext [] "/admin/posts" "POST")).err =
            (sampleNext (sampleContext [] "/admin/posts" "POST")).err ∧
          (CasbinAuth sampleEnforcer sampleNext
              (sampleContext ["bob"] "/admin/dashboard" "GET")).trace.filter Event.isNext =
            [Event.next (sampleContext ["bob"] "/admin/dashboard" "GET")] ∧
          (CasbinAuth sampleEnforcer sampleNext
              (sampleContext [] "/admin/posts" "POST")).trace.filter Event.isNext =
            [Event.next (sampleContext [] "/admin/posts" "POST")])) :=
  ⟨by decide,
    CasbinAuth_outcome_by_enforcer sampleEnforcer sampleNext
      (sampleContext ["bob"] "/admin/dashboard" "GET") (sampleContext [] "/admin/posts" "POST")
      (by decide)⟩

/-- C8: fail closed.  The handler calls `next` if and only if `Enforce` returned
true together with a nil error; on (true, non-nil error) it returns the 500
error and does not call `next`.  When allowed, the run holds one call of
`next`, the events of that run of `next` and its result; in every other case
the run is the same whatever `next` is, holds no call and no event of `next`,
and returns the 500 or the 403 error of the handler. -/
theorem CasbinAuth_fail_closed (e : Enforcer) (next : HandlerFunc) (c : Context) :
    (Event.next c ∈ (CasbinAuth e next c).trace ↔ e.Enforce (enforceArgs c) = (true, none)) ∧
      ((∃ c', Event.next c' ∈ (CasbinAuth e next c).trace) ↔
        e.Enforce (enforceArgs c) = (true, none)) ∧
      (∀ err, e.Enforce (enforceArgs c) = (true, some err) →
        (CasbinAuth e next c).err =
            some (HandlerError.HTTPError 500 ("Authorization failed: " ++ err.Error)) ∧
          (CasbinAuth e next c).trace.filter Event.isNext = [] ∧
          (CasbinAuth e next c).trace.filterMap Event.ofInner = []) ∧
      (e.Enforce (enforceArgs c) = (true, none) →
        (CasbinAuth e next c).err = (next c).err ∧
          (CasbinAuth e next c).trace.filter Event.isNext = [Event.next c] ∧
          (CasbinAuth e next c).trace.filterMap Event.ofInner = (next c).trace) ∧
      (e.Enforce (enforceArgs c) ≠ (true, none) →
        (∀ next' : HandlerFunc, CasbinAuth e next' c = CasbinAuth e next c) ∧
          (CasbinAuth e next c).trace.filterMap Event.ofInner = [] ∧
          (CasbinAuth e next c).trace.filter Event.isNext = [] ∧
          ((∃ err : GoError, (CasbinAuth e next c).err =
                some (HandlerError.HTTPError 500 ("Authorization failed: " ++ err.Error))) ∨
            (CasbinAuth e next c).err = some (HandlerError.HTTPError 403 "Access denied"))) := by
  refine ⟨?_, ?_, ?_, CasbinAuth_allow_run e next c, CasbinAuth_of_not_allow e next c⟩
  · rcases enforce_cases (e.Enforce (enforceArgs c)) with ⟨ok, err, h⟩ | h | h
    · rw [CasbinAuth_of_error e next c ok err h, h]
      simp
    · rw [CasbinAuth_of_deny e next c h, h]
      simp
    · rw [CasbinAuth_of_allow e next c h, h]
      simp
  · rcases enforce_cases (e.Enforce (enforceArgs c)) with ⟨ok, err, h⟩ | h | h
    · rw [CasbinAuth_of_error e next c ok err h, h]
      simp
    · rw [CasbinAuth_of_deny e next c h, h]
      simp
    · rw [CasbinAuth_of_allow e next c h, h]
      simp
  · intro err h
    rw [CasbinAuth_of_error e next c true err h]
    simp [List.filter, List.filterMap, Event.isNext, Event.ofInner, StatusInternalServerError]

/-! ## The claims on `main` -/

/-- C7: `main` constructs the enforcer exactly once, from "auth_model.conf" and
"policy.csv"; when that returns an error, the run is the calls up to the
construction followed by `Fatal` with that error, with no route registered and
the server not started; the server is started only when the construction
returned no error, and then after it. -/
theorem main_fatal_before_serving (env : Env) :
    (main env).calls.filter Call.isNewEnforcer =
        [Call.NewEnforcer "auth_model.conf" "policy.csv"] ∧
      (∀ err, env.NewEnforcer "auth_model.conf" "policy.csv" = Except.error err →
        (main env).calls =
            [Call.New, Call.SetOutput "os.Stdout", Call.Use "middleware.Logger()",
             Call.Use "middleware.Recover()", Call.NewEnforcer "auth_model.conf" "policy.csv",
             Call.Fatal (some err)] ∧
          (main env).routes = []) ∧
      ((∃ a, Call.Start a ∈ (main env).calls) ↔
        ∃ enforcer, env.NewEnforcer "auth_model.conf" "policy.csv" = Except.ok enforcer) ∧
      (∀ a, Call.Start a ∈ (main env).calls →
        ∃ before after, (main env).calls =
          before ++ Call.NewEnforcer "auth_model.conf" "policy.csv" :: after ∧
          Call.Start a ∈ after) := by
  cases h : env.NewEnforcer "auth_model.conf" "policy.csv" with
  | error err =>
    have hc := main_calls_of_error env err h
    refine ⟨?_, ?_, ?_, ?_⟩
    · rw [hc]
      rfl
    · intro err' he
      cases he
      refine ⟨hc, ?_⟩
      simp only [main, h]
      rfl
    · rw [hc]
      simp
    · intro a ha
      rw [hc] at ha
      simp at ha
  | ok enforcer =>
    have hc := main_calls_of_ok env enforcer h
    refine ⟨?_, ?_, ?_, ?_⟩
    · rw [hc]
      rfl
    · intro err he
      cases he
    · rw [hc]
      simp
    · intro a ha
      rw [hc] at ha ⊢
      refine ⟨[Call.New, Call.SetOutput "os.Stdout", Call.Use "middleware.Logger()",
        Call.Use "middleware.Recover()"], _, rfl, ?_⟩
      simp at ha
      simp [ha]

/-- A start-up whose model file cannot be read ends in `Fatal` with the error of
the load, with no route and no start of the server. -/
theorem main_fatal_before_serving_witness :
    (main failingEnv).calls =
        [Call.New, Call.SetOutput "os.Stdout", Call.Use "middleware.Logger()",
         Call.Use "middleware.Recover()", Call.NewEnforcer "auth_model.conf" "policy.csv",
         Call.Fatal (some { Error := "open auth_model.conf: no such file or directory" })] ∧
      (main failingEnv).routes = [] :=
  (main_fatal_before_serving failingEnv).2.1
    { Error := "open auth_model.conf: no such file or directory" } rfl

/-- C9: once the enforcer is constructed, the route table is GET "/" with its
bare body, then the routes of the "/admin" group: the two not-found catch-alls
echo adds on `admin.Use` and the four routes of `main` (GET /admin/dashboard,
GET /admin/posts, POST /admin/users, POST /admin/posts), each with its body
wrapped by `CasbinAuth` of that one enforcer; `CasbinAuth` is not among the
global middleware.  On every route of the group the body runs only after an
allow decision, and then once; on each of the four routes of `main` the body
writes its 200 response exactly when the enforcer allowed.  The route GET "/"
is the bare body: it writes 200 "Hello, World!" and does not call the enforcer. -/
theorem main_admin_routes_guarded (env : Env) (enforcer : Enforcer)
    (h : env.NewEnforcer "auth_model.conf" "policy.csv" = Except.ok enforcer) :
    (main env).routes =
        [{ Method := "GET", Path := "/", handler := fun c => c.String StatusOK "Hello, World!" },
         { Method := RouteNotFound, Path := "/admin"
           handler := CasbinAuth enforcer NotFoundHandler },
         { Method := RouteNotFound, Path := "/admin/*"
           handler := CasbinAuth enforcer NotFoundHandler },
         { Method := "GET", Path := "/admin/dashboard"
           handler := CasbinAuth enforcer (fun c => c.String StatusOK "Admin Dashboard") },
         { Method := "GET", Path := "/admin/posts"
           handler := CasbinAuth enforcer (fun c => c.String StatusOK "View post") },
         { Method := "POST", Path := "/admin/users"
           handler := CasbinAuth enforcer (fun c => c.String StatusOK "User created") },
         { Method := "POST", Path := "/admin/posts"
           handler := CasbinAuth enforcer (fun c => c.String StatusOK "Upload post") }] ∧
      (main env).middleware = ["middleware.Logger()", "middleware.Recover()"] ∧
      ((main env).routes.filter (fun r => r.Path != "/" && r.Method != RouteNotFound)).map
          (fun r => (r.Method, r.Path)) =
        [("GET", "/admin/dashboard"), ("GET", "/admin/posts"),
         ("POST", "/admin/users"), ("POST", "/admin/posts")] ∧
      (∀ r ∈ (main env).routes, r.Path ≠ "/" →
        ∃ body : HandlerFunc, r.handler = CasbinAuth enforcer body ∧ ∀ c,
          (r.handler c).trace.filter Event.isEnforce = [Event.Enforce (enforceArgs c)] ∧
          (enforcer.Enforce (enforceArgs c) = (true, none) →
            (r.handler c).err = (body c).err ∧
              (r.handler c).trace.filterMap Event.ofInner = (body c).trace) ∧
          (enforcer.Enforce (enforceArgs c) ≠ (true, none) →
            (r.handler c).trace.filterMap Event.ofInner = [] ∧
              ((∃ err : GoError, (r.handler c).err =
                    some (HandlerError.HTTPError 500 ("Authorization failed: " ++ err.Error))) ∨
                (r.handler c).err = some (HandlerError.HTTPError 403 "Access denied")))) ∧
      (∀ r ∈ (main env).routes, r.Path ≠ "/" → r.Method ≠ RouteNotFound → ∀ c,
        ((∃ s, (r.handler c).trace.filterMap Event.ofInner = [Event.writeString 200 s]) ↔
          enforcer.Enforce (enforceArgs c) = (true, none))) ∧
      (∀ r ∈ (main env).routes, r.Path = "/" → r.Method = "GET" ∧ ∀ c,
        r.handler c = c.String 200 "Hello, World!" ∧
          (r.handler c).trace = [Event.writeString 200 "Hello, World!"] ∧
          (r.handler c).trace.filter Event.isEnforce = []) := by
  have hr := main_routes_of_ok env enforcer h
  have key : ∀ (body : HandlerFunc) (c : Context),
      (CasbinAuth enforcer body c).trace.filter Event.isEnforce =
          [Event.Enforce (enforceArgs c)] ∧
        (enforcer.Enforce (enforceArgs c) = (true, none) →
          (CasbinAuth enforcer body c).err = (body c).err ∧
            (CasbinAuth enforcer body c).trace.filterMap Event.ofInner = (body c).trace) ∧
        (enforcer.Enforce (enforceArgs c) ≠ (true, none) →
          (CasbinAuth enforcer body c).trace.filterMap Event.ofInner = [] ∧
            ((∃ err : GoError, (CasbinAuth enforcer body c).err =
                  some (HandlerError.HTTPError 500 ("Authorization failed: " ++ err.Error))) ∨
              (CasbinAuth enforcer body c).err =
                some (HandlerError.HTTPError 403 "Access denied"))) := by
    intro body c
    refine ⟨CasbinAuth_filter_isEnforce enforcer body c, fun ha => ?_, fun hn => ?_⟩
    · exact ⟨(CasbinAuth_allow_run enforcer body c ha).1,
        (CasbinAuth_allow_run enforcer body c ha).2.2⟩
    · exact ⟨(CasbinAuth_of_not_allow enforcer body c hn).2.1,
        (CasbinAuth_of_not_allow enforcer body c hn).2.2.2⟩
  have writes : ∀ (t : String) (c : Context),
      ((∃ s, (CasbinAuth enforcer (fun c => c.String StatusOK t) c).trace.filterMap
            Event.ofInner = [Event.writeString 200 s]) ↔
        enforcer.Enforce (enforceArgs c) = (true, none)) := by
    intro t c
    constructor
    · rintro ⟨s, hs⟩
      by_contra hn
      rw [(CasbinAuth_of_not_allow enforcer _ c hn).2.1] at hs
      cases hs
    · intro ha
      exact ⟨t, (CasbinAuth_allow_run enforcer _ c ha).2.2⟩
  refine ⟨hr, ?_, ?_, ?_, ?_, ?_⟩
  · simp only [main, h]
    rfl
  · rw [hr]
    rfl
  · intro r hmem hp
    rw [hr] at hmem
    simp only [List.mem_cons, List.mem_singleton, List.not_mem_nil, or_false] at hmem
    rcases hmem with rfl | rfl | rfl | rfl | rfl | rfl | rfl
    · exact absurd rfl hp
    all_goals exact ⟨_, rfl, key _⟩
  · intro r hmem hp hm c
    rw [hr] at hmem
    simp only [List.mem_cons, List.mem_singleton, List.not_mem_nil, or_false] at hmem
    rcases hmem with rfl | rfl | rfl | rfl | rfl | rfl | rfl
    · exact absurd rfl hp
    · exact absurd rfl hm
    · exact absurd rfl hm
    all_goals exact writes _ c
  · intro r hmem hp
    rw [hr] at hmem
    simp only [List.mem_cons, List.mem_singleton, List.not_mem_nil, or_false] at hmem
    rcases hmem with rfl | rfl | rfl | rfl | rfl | rfl | rfl
    · exact ⟨rfl, fun c => ⟨rfl, rfl, rfl⟩⟩
    all_goals simp at hp

/-- In the sample start-up the table has the route GET "/" and the six routes
of the group; admin is answered by the bodies of the group (404 on the two
catch-alls) and bob is refused on all six. -/
theorem main_admin_routes_guarded_witness :
    sampleEnv.NewEnforcer "auth_model.conf" "policy.csv" = Except.ok sampleEnforcer ∧
      (main sampleEnv).routes.map (fun r => (r.Method, r.Path)) =
        [("GET", "/"), ("echo_route_not_found", "/admin"), ("echo_route_not_found", "/admin/*"),
         ("GET", "/admin/dashboard"), ("GET", "/admin/posts"),
         ("POST", "/admin/users"), ("POST", "/admin/posts")] ∧
      (main sampleEnv).routes.map
          (fun r => (r.handler (sampleContext ["admin"] "/admin/dashboard" "GET")).err) =
        [none, some (HandlerError.HTTPError 404 "Not Found"),
         some (HandlerError.HTTPError 404 "Not Found"), none, none, none, none] ∧
      (main sampleEnv).routes.map
          (fun r => (r.handler (sampleContext ["bob"] "/admin/dashboard" "GET")).err) =
        [none, some (HandlerError.HTTPError 403 "Access denied"),
         some (HandlerError.HTTPError 403 "Access denied"),
         some (HandlerError.HTTPError 403 "Access denied"),
         some (HandlerError.HTTPError 403 "Access denied"),
         some (HandlerError.HTTPError 403 "Access denied"),
         some (HandlerError.HTTPError 403 "Access denied")] := by
  have h := (main_admin_routes_guarded sampleEnv sampleEnforcer rfl).1
  refine ⟨rfl, ?_, ?_, ?_⟩
  · rw [h]
    rfl
  · rw [h]
    decide
  · rw [h]
    decide

end CasbinAuthApp
